import Mathlib

/-!
Verification of the Knob-Generator geometry core against its specification.

The repository file src/js/knobGeometry.js contains two variants of the
geometry module (separated by a document marker).  We refer to them as
variant 1 (lines 1-276: mergeBufferGeometries-based concatenation, Matrix4
transforms) and variant 2 (lines 277-496: CSG-mesh based, mesh position /
rotation placement).  Both are embedded below; definitions carry a `_v1` or
`_v2` suffix matching the variant they are translated from.

Scalars are modelled as real numbers (the source uses JS doubles); angles use
Real.pi, Real.cos, Real.sin where the source uses Math.PI, Math.cos, Math.sin.
Geometry construction is embedded as a tree of the exact operations the source
performs: primitive constructors (THREE.CylinderGeometry, THREE.BoxGeometry,
THREE.SphereGeometry), transforms (geometry.translate / mesh.position +
mesh.rotation.y, applyMatrix4), CSG boolean operations (subtract, union) and
vertex-buffer concatenation (mergeBufferGeometries / Geometry.merge), so that
which operation the code uses is directly observable on the tree.
-/

noncomputable section

/-- A 3-component vector, as THREE.Vector3 (positions, normals). -/
structure Vec3 where
  x : ℝ
  y : ℝ
  z : ℝ


/-- The affine part of a THREE.Matrix4: 3x3 linear block (n11..n33) plus the
translation column (n14, n24, n34).  The bottom row of a THREE.Matrix4 is
constant (0 0 0 1) for the matrices the source builds, so it is omitted. -/
structure Mat4 where
  n11 : ℝ
  n12 : ℝ
  n13 : ℝ
  n14 : ℝ
  n21 : ℝ
  n22 : ℝ
  n23 : ℝ
  n24 : ℝ
  n31 : ℝ
  n32 : ℝ
  n33 : ℝ
  n34 : ℝ


/-- new THREE.Matrix4(): the identity matrix. -/
def Mat4.identity : Mat4 :=
  ⟨1, 0, 0, 0,
   0, 1, 0, 0,
   0, 0, 1, 0⟩

/-- Matrix4.makeTranslation(x, y, z): SETS every entry of the matrix to the
pure translation matrix, discarding the previous contents (three.js
semantics: make* methods overwrite the whole matrix). -/
def Mat4.makeTranslation (_m : Mat4) (x y z : ℝ) : Mat4 :=
  ⟨1, 0, 0, x,
   0, 1, 0, y,
   0, 0, 1, z⟩

/-- Matrix4.makeRotationY(theta): SETS every entry of the matrix to the pure
rotation-about-Y matrix, discarding the previous contents. -/
def Mat4.makeRotationY (_m : Mat4) (theta : ℝ) : Mat4 :=
  ⟨Real.cos theta, 0, Real.sin theta, 0,
   0, 1, 0, 0,
   -Real.sin theta, 0, Real.cos theta, 0⟩

/-- Apply the affine map of a Matrix4 to a point. -/
def Mat4.transformPoint (m : Mat4) (v : Vec3) : Vec3 :=
  ⟨m.n11 * v.x + m.n12 * v.y + m.n13 * v.z + m.n14,
   m.n21 * v.x + m.n22 * v.y + m.n23 * v.z + m.n24,
   m.n31 * v.x + m.n32 * v.y + m.n33 * v.z + m.n34⟩

/-- Rotation about the Y axis applied to a point (the action of
Matrix4.makeRotationY / mesh.rotation.y on a point). -/
def rotYpoint (theta : ℝ) (v : Vec3) : Vec3 :=
  ⟨Real.cos theta * v.x + Real.sin theta * v.z,
   v.y,
   -Real.sin theta * v.x + Real.cos theta * v.z⟩

/-- Geometry expression tree: each constructor records one operation the
source performs on geometry.

* cylinder: THREE.CylinderGeometry(radiusTop, radiusBottom, height,
  radialSegments, heightSegments, openEnded)
* box: THREE.BoxGeometry(width, height, depth), centered at the local origin
* sphere: THREE.SphereGeometry(radius, widthSegments, heightSegments,
  phiStart, phiLength, thetaStart, thetaLength)
* translate: geometry.translate(dx, dy, dz) or mesh.position.set(dx, dy, dz)
* rotateY: mesh.rotation.y (a mesh world matrix is translation composed after
  rotation, so mesh placement is embedded as translate of rotateY)
* applyMatrix4: geometry.applyMatrix4(m)
* subtract: CSG subtraction (aCSG.subtract(bCSG))
* union: CSG union (aCSG.union(bCSG))
* merge: Geometry.merge / BufferGeometry.merge of two geometries
  (vertex-buffer concatenation, not a boolean operation)
* concat: mergeBufferGeometries over a list of geometries
  (vertex-buffer concatenation, not a boolean operation) -/
inductive Geom where
  | cylinder (radiusTop radiusBottom height : ℝ)
      (radialSegments heightSegments : ℕ) (openEnded : Bool)
  | box (width height depth : ℝ)
  | sphere (radius : ℝ) (widthSegments heightSegments : ℕ)
      (phiStart phiLength thetaStart thetaLength : ℝ)
  | translate (g : Geom) (dx dy dz : ℝ)
  | rotateY (g : Geom) (theta : ℝ)
  | applyMatrix4 (g : Geom) (m : Mat4)
  | subtract (a b : Geom)
  | union (a b : Geom)
  | merge (a b : Geom)
  | concat (gs : List Geom)

/-- Head-constructor test: is this geometry the result of a CSG subtraction? -/
def Geom.isSubtract : Geom → Bool
  | .subtract _ _ => true
  | _ => false

/-- Head-constructor test: is this geometry a vertex-buffer concatenation of a
list of geometries (a mergeBufferGeometries result)? -/
def Geom.isConcat : Geom → Bool
  | .concat _ => true
  | _ => false

/-- The centroid of a primitive placed by transforms.  The box and cylinder
primitives are symmetric about their local origin, so their centroid is the
origin; affine transforms map centroids accordingly.  Composite geometries
(boolean results, buffer concatenations) and partial spheres return none. -/
def Geom.center : Geom → Option Vec3
  | .cylinder _ _ _ _ _ _ => some ⟨0, 0, 0⟩
  | .box _ _ _ => some ⟨0, 0, 0⟩
  | .translate g dx dy dz =>
      (Geom.center g).map fun c => ⟨c.x + dx, c.y + dy, c.z + dz⟩
  | .rotateY g theta => (Geom.center g).map (rotYpoint theta)
  | .applyMatrix4 g m => (Geom.center g).map m.transformPoint
  | _ => none

/-- The height parameter of the base cylinder primitive from which a (shaft)
geometry is built: recurses through the left operand of subtract / merge and
through transforms down to the first cylinder primitive. -/
def Geom.baseCylHeight : Geom → Option ℝ
  | .cylinder _ _ height _ _ _ => some height
  | .subtract a _ => a.baseCylHeight
  | .merge a _ => a.baseCylHeight
  | .translate g _ _ _ => g.baseCylHeight
  | .rotateY g _ => g.baseCylHeight
  | .applyMatrix4 g _ => g.baseCylHeight
  | _ => none

/-- The z-extent (interval of z coordinates) occupied by a translated box,
used to locate the faces of the D-shaft cutout box.  Only boxes and their
translates are given an interval. -/
def Geom.zInterval : Geom → Option (ℝ × ℝ)
  | .box _ _ depth => some (-(depth / 2), depth / 2)
  | .translate g _ _ dz =>
      (Geom.zInterval g).map fun i => (i.1 + dz, i.2 + dz)
  | _ => none

/-- The Knob Parameters record (app.js `this.params`, consumed by
createKnobGeometry in both variants). -/
structure KnobParams where
  knobDia : ℝ
  knobHeight : ℝ
  shaftType : ℕ
  shaftDia : ℝ
  outerRidged : Bool
  noOfOuterRidges : ℕ
  makeTopIndent : Bool

/-- The default parameter record from app.js. -/
def defaultParams : KnobParams :=
  ⟨35, 14, 0, 6, true, 50, true⟩

/-!
Variant 1 (knobGeometry.js lines 1-276).
-/

/-- Variant 1, addRidges loop body (lines 64-82): the ridge geometry pushed at
iteration i.  The source builds a Matrix4, calls makeTranslation(x, 0, z) and
then makeRotationY(angle) on it, and applies the resulting matrix. -/
def ridgeGeom_v1 (count : ℕ) (diameter height : ℝ) (i : ℕ) : Geom :=
  let angle := ((i : ℝ) / (count : ℝ)) * Real.pi * 2
  let ridgeWidth : ℝ := 0.5
  let ridgeHeight := height * 0.8
  let ridgeDepth : ℝ := 1
  let ridgeGeometry := Geom.box ridgeWidth ridgeHeight ridgeDepth
  let radius := diameter / 2 + ridgeDepth / 2
  let x := Real.cos angle * radius
  let z := Real.sin angle * radius
  let matrix := Mat4.identity
  let matrix := matrix.makeTranslation x 0 z
  let matrix := matrix.makeRotationY angle
  Geom.applyMatrix4 ridgeGeometry matrix

/-- Variant 1, addRidges (lines 57-87): pushes the base geometry and all
ridges into a list, then merges them with mergeBufferGeometries
(vertex-buffer concatenation). -/
def addRidges_v1 (baseGeometry : Geom) (count : ℕ) (diameter height : ℝ) :
    Geom :=
  Geom.concat (baseGeometry ::
    (List.range count).map (ridgeGeom_v1 count diameter height))

/-- Variant 1, createDShapedShaft cutout (lines 138-143): box of size
(diameter, height*1.2, diameter/3) translated by (0, 0, diameter/3). -/
def dCutout_v1 (diameter height : ℝ) : Geom :=
  Geom.translate (Geom.box diameter (height * 1.2) (diameter / 3))
    0 0 (diameter / 3)

/-- Variant 1, createDShapedShaft (lines 128-151): CSG subtraction of the
cutout box from a cylinder of height height*1.1. -/
def createDShapedShaft_v1 (diameter height : ℝ) : Geom :=
  Geom.subtract
    (Geom.cylinder (diameter / 2) (diameter / 2) (height * 1.1) 32 1 false)
    (dCutout_v1 diameter height)

/-- Variant 1, createDetentedShaft loop body (lines 173-187): the detent box
at iteration i, transformed by a Matrix4 on which makeTranslation and then
makeRotationY were called.  detentCount is fixed at 20. -/
def detentGeom_v1 (diameter height : ℝ) (i : ℕ) : Geom :=
  let angle := ((i : ℝ) / (20 : ℝ)) * Real.pi * 2
  let detentWidth : ℝ := 0.5
  let detentHeight := diameter / 4
  let detentGeometry := Geom.box detentWidth (height * 1.2) detentHeight
  let matrix := Mat4.identity
  let matrix := matrix.makeTranslation
    (Real.cos angle * (diameter / 2)) 0 (Real.sin angle * (diameter / 2))
  let matrix := matrix.makeRotationY angle
  Geom.applyMatrix4 detentGeometry matrix

/-- Variant 1, createDetentedShaft (lines 159-190): a cylinder of height
height*1.1, onto which each of the 20 detent boxes is merged in turn with
shaftGeometry.merge (vertex-buffer concatenation). -/
def createDetentedShaft_v1 (diameter height : ℝ) : Geom :=
  ((List.range 20).map (detentGeom_v1 diameter height)).foldl Geom.merge
    (Geom.cylinder (diameter / 2) (diameter / 2) (height * 1.1) 32 1 false)

/-- Variant 1, createShaftGeometry (lines 96-120): switch on the shaft type.
The default branch builds the same round cylinder as case 0 (heightSegments
and openEnded take the THREE defaults 1 and false). -/
def createShaftGeometry_v1 (type : ℕ) (diameter height : ℝ) : Geom :=
  match type with
  | 0 =>
      Geom.cylinder (diameter / 2) (diameter / 2) (height * 1.1) 32 1 false
  | 1 => createDShapedShaft_v1 diameter height
  | 2 => createDetentedShaft_v1 diameter height
  | _ =>
      Geom.cylinder (diameter / 2) (diameter / 2) (height * 1.1) 32 1 false

/-- Variant 1, addTopIndent (lines 199-217): a hemisphere (SphereGeometry
with thetaStart 0, thetaLength pi/2) of radius diameter*0.3 translated to the
top face (0, height/2, 0), then merged onto the base geometry with
mergeBufferGeometries (vertex-buffer concatenation, no subtraction). -/
def addTopIndent_v1 (baseGeometry : Geom) (diameter height : ℝ) : Geom :=
  let indentRadius := diameter * 0.3
  let sphereGeometry :=
    Geom.sphere indentRadius 32 32 0 (Real.pi * 2) 0 (Real.pi / 2)
  let sphereGeometry := Geom.translate sphereGeometry 0 (height / 2) 0
  Geom.concat [baseGeometry, sphereGeometry]

/-- Variant 1, subtractGeometry (lines 225-231): CSG subtraction. -/
def subtractGeometry (geometryA geometryB : Geom) : Geom :=
  Geom.subtract geometryA geometryB

/-- Variant 1, createKnobGeometry step 1 (lines 21-28): the base cylinder. -/
def knobGeometry_v1 (p : KnobParams) : Geom :=
  Geom.cylinder (p.knobDia / 2) (p.knobDia / 2) p.knobHeight 32 1 false

/-- Variant 1, createKnobGeometry steps before the shaft subtraction
(lines 30-40): optional ridges, optional top indent. -/
def preShaft_v1 (p : KnobParams) : Geom :=
  let finalGeometry := knobGeometry_v1 p
  let finalGeometry :=
    if p.outerRidged then
      addRidges_v1 finalGeometry p.noOfOuterRidges p.knobDia p.knobHeight
    else finalGeometry
  if p.makeTopIndent then
    addTopIndent_v1 finalGeometry p.knobDia p.knobHeight
  else finalGeometry

/-- Variant 1, createKnobGeometry (lines 9-47): base cylinder, optional
ridges, optional indent, then UNCONDITIONALLY builds the shaft geometry and
subtracts it (there is no shaftDia > 0 guard in this variant). -/
def createKnobGeometry_v1 (p : KnobParams) : Geom :=
  subtractGeometry (preShaft_v1 p)
    (createShaftGeometry_v1 p.shaftType p.shaftDia p.knobHeight)

/-!
Variant 2 (knobGeometry.js lines 277-496).
-/

/-- Variant 2, createKnobGeometry base (lines 300-301): a 64-segment cylinder
translated so its base is at y = 0. -/
def knobBase_v2 (p : KnobParams) : Geom :=
  Geom.translate
    (Geom.cylinder (p.knobDia / 2) (p.knobDia / 2) p.knobHeight 64 1 false)
    0 (p.knobHeight / 2) 0

/-- Variant 2, addOuterRidges loop body (lines 338-348): the ridge mesh at
iteration i, placed with mesh.position.set(x, ridgeHeight/2, z) and
mesh.rotation.y = angle (world transform: rotation then translation). -/
def ridgeGeom_v2 (count : ℕ) (diameter height : ℝ) (i : ℕ) : Geom :=
  let angle := ((i : ℝ) / (count : ℝ)) * Real.pi * 2
  let ridgeWidth : ℝ := 0.5
  let ridgeHeight := height * 0.8
  let ridgeDepth : ℝ := 1
  let ridge := Geom.box ridgeWidth ridgeHeight ridgeDepth
  let radius := diameter / 2 + ridgeDepth / 2
  let x := Real.cos angle * radius
  let z := Real.sin angle * radius
  Geom.translate (Geom.rotateY ridge angle) x (ridgeHeight / 2) z

/-- Variant 2, addOuterRidges (lines 331-361): CSG-unions each ridge into the
accumulating solid, left to right. -/
def addOuterRidges_v2 (baseMesh : Geom) (count : ℕ) (diameter height : ℝ) :
    Geom :=
  (List.range count).foldl
    (fun acc i => Geom.union acc (ridgeGeom_v2 count diameter height i))
    baseMesh

/-- Variant 2, addTopIndent (lines 370-387): a hemisphere of radius
diameter*0.3 positioned at (0, height, 0), CSG-subtracted from the base. -/
def addTopIndent_v2 (baseMesh : Geom) (diameter height : ℝ) : Geom :=
  let indentRadius := diameter * 0.3
  let indent := Geom.sphere indentRadius 32 16 0 (Real.pi * 2) 0 (Real.pi / 2)
  Geom.subtract baseMesh (Geom.translate indent 0 height 0)

/-- Variant 2, createDShapedShaft cutout (lines 438-440): box of size
(diameter, height, diameter/3) positioned at (0, 0, diameter/6). -/
def dCutout_v2 (diameter height : ℝ) : Geom :=
  Geom.translate (Geom.box diameter height (diameter / 3)) 0 0 (diameter / 6)

/-- Variant 2, createDShapedShaft (lines 436-449): CSG subtraction of the
cutout box from a cylinder (heightSegments and openEnded default). -/
def createDShapedShaft_v2 (diameter height : ℝ) : Geom :=
  Geom.subtract
    (Geom.cylinder (diameter / 2) (diameter / 2) height 32 1 false)
    (dCutout_v2 diameter height)

/-- Variant 2, createDetentedShaft loop body (lines 468-479): the detent box
at iteration i, placed with mesh.position.set(x, 0, z) and
mesh.rotation.y = angle.  detentCount is fixed at 20. -/
def detentGeom_v2 (diameter height : ℝ) (i : ℕ) : Geom :=
  let angle := ((i : ℝ) / (20 : ℝ)) * Real.pi * 2
  let detentWidth : ℝ := 0.5
  let detentDepth : ℝ := 1
  let detentHeight := height * 1.2
  let detent := Geom.box detentWidth detentHeight detentDepth
  let radius := diameter / 2
  let x := Real.cos angle * radius
  let z := Real.sin angle * radius
  Geom.translate (Geom.rotateY detent angle) x 0 z

/-- Variant 2, createDetentedShaft (lines 457-496): the 20 detent boxes are
merged into one geometry (vertex-buffer concatenation of the list), which is
then CSG-SUBTRACTED from the shaft cylinder. -/
def createDetentedShaft_v2 (diameter height : ℝ) : Geom :=
  Geom.subtract
    (Geom.cylinder (diameter / 2) (diameter / 2) height 32 1 false)
    (Geom.concat ((List.range 20).map (detentGeom_v2 diameter height)))

/-- Variant 2, the switch inside createShaftHole (lines 402-415): builds the
shaft negative volume for the recognized types; the default branch of the
source logs a console warning and returns the base mesh early, modelled here
by none. -/
def shaftGeometrySwitch_v2 (shaftType : ℕ) (shaftDia shaftHeight : ℝ) :
    Option Geom :=
  match shaftType with
  | 0 => some (Geom.cylinder (shaftDia / 2) (shaftDia / 2) shaftHeight 32 1
      false)
  | 1 => some (createDShapedShaft_v2 shaftDia shaftHeight)
  | 2 => some (createDetentedShaft_v2 shaftDia shaftHeight)
  | _ => none

/-- Variant 2, createShaftHole (lines 397-428): shaftHeight = height * 1.1;
on a recognized type the shaft mesh is positioned at (0, height/2, 0) and
CSG-subtracted from the base mesh; on an unrecognized type the base mesh is
returned unmodified. -/
def createShaftHole_v2 (baseMesh : Geom) (shaftType : ℕ)
    (shaftDia height : ℝ) : Geom :=
  let shaftHeight := height * 1.1
  match shaftGeometrySwitch_v2 shaftType shaftDia shaftHeight with
  | none => baseMesh
  | some shaftGeometry =>
      Geom.subtract baseMesh
        (Geom.translate shaftGeometry 0 (height / 2) 0)

/-- Variant 2, createKnobGeometry steps before the shaft hole (lines
300-313): base cylinder, optional ridges, optional indent. -/
def preShaft_v2 (p : KnobParams) : Geom :=
  let knobMesh := knobBase_v2 p
  let knobMesh :=
    if p.outerRidged then
      addOuterRidges_v2 knobMesh p.noOfOuterRidges p.knobDia p.knobHeight
    else knobMesh
  if p.makeTopIndent then
    addTopIndent_v2 knobMesh p.knobDia p.knobHeight
  else knobMesh

/-- Variant 2, createKnobGeometry (lines 288-321): the shaft hole is cut only
when shaftDia > 0. -/
def createKnobGeometry_v2 (p : KnobParams) : Geom :=
  let knobMesh := preShaft_v2 p
  if p.shaftDia > 0 then
    createShaftHole_v2 knobMesh p.shaftType p.shaftDia p.knobHeight
  else knobMesh

/-!
Array-level embedding of mergeBufferGeometries (variant 1, lines 238-276),
for the claim about vertex/index concatenation.  A THREE.BufferGeometry is
modelled by its flat position array, flat normal array and optional index
array.
-/

/-- A THREE.BufferGeometry: flat xyz position array, flat xyz normal array,
optional triangle index array. -/
structure BufferGeometry where
  position : List ℝ
  normal : List ℝ
  index : Option (List ℕ)

/-- The body of the geometries.forEach loop in mergeBufferGeometries (lines
246-267), as a fold step over the accumulated (position, normal, index,
vertexOffset) state.  The position loop runs to pos.length and pushes pos[i]
and norm[i] (hence the take pos.length on the normal array); an indexed input
pushes idx[i] + vertexOffset, a non-indexed input pushes vertexOffset + i for
i below pos.length / 3; vertexOffset then grows by pos.length / 3. -/
def mergeAccum (acc : List ℝ × List ℝ × List ℕ × ℕ)
    (geometry : BufferGeometry) : List ℝ × List ℝ × List ℕ × ℕ :=
  let position := acc.1
  let normal := acc.2.1
  let index := acc.2.2.1
  let vertexOffset := acc.2.2.2
  let pos := geometry.position
  let norm := geometry.normal
  let newIndex :=
    match geometry.index with
    | some idx => idx.map fun j => j + vertexOffset
    | none => (List.range (pos.length / 3)).map fun i => vertexOffset + i
  (position ++ pos, normal ++ norm.take pos.length, index ++ newIndex,
    vertexOffset + pos.length / 3)

/-- Vector addition (THREE.Vector3.add). -/
def vAdd (a b : Vec3) : Vec3 :=
  ⟨a.x + b.x, a.y + b.y, a.z + b.z⟩

/-- Vector difference (THREE.Vector3.subVectors). -/
def vSub (a b : Vec3) : Vec3 :=
  ⟨a.x - b.x, a.y - b.y, a.z - b.z⟩

/-- Cross product (THREE.Vector3.cross). -/
def vCross (a b : Vec3) : Vec3 :=
  ⟨a.y * b.z - a.z * b.y, a.z * b.x - a.x * b.z, a.x * b.y - a.y * b.x⟩

/-- THREE.Vector3.normalize: divide by the Euclidean length.  Division by a
zero length yields the zero vector (only the zero vector has zero length). -/
def vNormalize (v : Vec3) : Vec3 :=
  let len := Real.sqrt (v.x * v.x + v.y * v.y + v.z * v.z)
  ⟨v.x / len, v.y / len, v.z / len⟩

/-- Group a flat coordinate array into xyz vectors. -/
def groupVec3 : List ℝ → List Vec3
  | x :: y :: z :: rest => ⟨x, y, z⟩ :: groupVec3 rest
  | _ => []

/-- Group an index array into triangles. -/
def triples : List ℕ → List (ℕ × ℕ × ℕ)
  | a :: b :: c :: rest => (a, b, c) :: triples rest
  | _ => []

/-- Add a vector into position i of a vector list (out-of-range leaves the
list unchanged, matching an in-bounds-only usage). -/
def addAt (l : List Vec3) (i : ℕ) (v : Vec3) : List Vec3 :=
  l.set i (vAdd (l.getD i ⟨0, 0, 0⟩) v)

/-- The accumulation phase of THREE.BufferGeometry.computeVertexNormals for
an indexed geometry: start from zero normals and, for each triangle
(ia, ib, ic), add the face cross product (c - b) x (a - b) into the normals
of its three vertices. -/
def accumFaceNormals (verts : List Vec3) (faces : List (ℕ × ℕ × ℕ)) :
    List Vec3 :=
  faces.foldl
    (fun ns f =>
      let a := verts.getD f.1 ⟨0, 0, 0⟩
      let b := verts.getD f.2.1 ⟨0, 0, 0⟩
      let c := verts.getD f.2.2 ⟨0, 0, 0⟩
      let cb := vSub c b
      let ab := vSub a b
      let faceNormal := vCross cb ab
      addAt (addAt (addAt ns f.1 faceNormal) f.2.1 faceNormal) f.2.2
        faceNormal)
    (List.replicate verts.length ⟨0, 0, 0⟩)

/-- THREE.BufferGeometry.computeVertexNormals on a flat position array and an
index array: accumulate face normals per vertex, then normalize each vertex
normal, returned again as a flat array. -/
def computeVertexNormalsArr (position : List ℝ) (index : List ℕ) : List ℝ :=
  let verts := groupVec3 position
  let normals := (accumFaceNormals verts (triples index)).map vNormalize
  (normals.map fun v => [v.x, v.y, v.z]).flatten

/-- Variant 1, mergeBufferGeometries (lines 238-276): fold the inputs into
concatenated position / normal / index arrays, set them on the merged
geometry, then call computeVertexNormals, which OVERWRITES the normal
attribute with normals recomputed from the merged positions and index. -/
def mergeBufferGeometries (geometries : List BufferGeometry) :
    BufferGeometry :=
  let st := geometries.foldl mergeAccum ([], [], [], 0)
  let position := st.1
  let index := st.2.2.1
  { position := position,
    normal := computeVertexNormalsArr position index,
    index := some index }

/-- Modelled from the claim wording: the merged index re-emits every input
triangle with that input's indices offset by the cumulative vertex count
(position.length / 3) of the preceding inputs, generating sequential indices
for non-indexed inputs.  Compared below against mergeBufferGeometries. -/
def mergedIndexSpec : List BufferGeometry → ℕ → List ℕ
  | [], _ => []
  | g :: gs, off =>
      (match g.index with
        | some idx => idx.map fun j => j + off
        | none => (List.range (g.position.length / 3)).map fun i => off + i)
        ++ mergedIndexSpec gs (off + g.position.length / 3)

/-!
Concrete parameter records used by counterexamples and witnesses.
-/

/-- A parameter record with shaft diameter 0 and all optional features off. -/
def paramsShaftZero : KnobParams :=
  ⟨35, 14, 0, 0, false, 50, false⟩

/-- A parameter record with shaft diameter 40 exceeding the knob diameter 35
(structurally invalid per the data-model invariant). -/
def paramsInvalid : KnobParams :=
  ⟨35, 14, 0, 40, false, 50, false⟩

/-!
Claim theorems.
-/

/-- Claim C1: the top-indent feature must be applied by a true boolean
subtraction of the hemispherical cap, never by concatenating the cap onto the
solid.  Variant 2 does subtract the 0.3-by-diameter cap positioned at the top
face, but variant 1 applies the cap with mergeBufferGeometries: the result is
a vertex-buffer concatenation and not a subtraction, so the indent code of
variant 1 adds a dome instead of cutting a cavity. -/
theorem c1_top_indent_bug :
    (∀ (baseMesh : Geom) (diameter height : ℝ),
        addTopIndent_v2 baseMesh diameter height =
          Geom.subtract baseMesh
            (Geom.translate
              (Geom.sphere (diameter * 0.3) 32 16 0 (Real.pi * 2) 0
                (Real.pi / 2)) 0 height 0)) ∧
    (addTopIndent_v1 (knobGeometry_v1 defaultParams) 35 14).isConcat =
      true ∧
    (addTopIndent_v1 (knobGeometry_v1 defaultParams) 35 14).isSubtract =
      false :=
  ⟨fun _ _ _ => rfl, rfl, rfl⟩

/-- Claim C2 counterexample: with shaft diameter 0 (ridges and indent off),
variant 1 still returns a CSG subtraction node, so the returned geometry is
not the unmodified base cylinder mesh: the shaft-subtraction step runs. -/
theorem c2_shaft_zero_counterexample :
    (createKnobGeometry_v1 paramsShaftZero).isSubtract = true ∧
    (knobGeometry_v1 paramsShaftZero).isSubtract = false :=
  ⟨rfl, rfl⟩

/-- Claim C2, amended: the shaftDia > 0 guard exists only in variant 2, where
a record with shaft diameter 0 skips the shaft step and returns the mesh of
the preceding steps (the base cylinder when ridges and indent are off); in
variant 1 the shaft subtraction runs unconditionally, on a degenerate
zero-diameter shaft geometry. -/
theorem c2_shaft_zero_amended (p : KnobParams) (h : p.shaftDia = 0) :
    createKnobGeometry_v2 p = preShaft_v2 p ∧
    (p.outerRidged = false → p.makeTopIndent = false →
      createKnobGeometry_v2 p = knobBase_v2 p) ∧
    createKnobGeometry_v1 p =
      Geom.subtract (preShaft_v1 p)
        (createShaftGeometry_v1 p.shaftType p.shaftDia p.knobHeight) := by
  have hif : createKnobGeometry_v2 p = preShaft_v2 p := by
    simp only [createKnobGeometry_v2]
    rw [h]
    simp
  refine ⟨hif, fun hr hi => ?_, rfl⟩
  rw [hif]
  simp [preShaft_v2, hr, hi]

/-- Claim C2 witness: the amended statement evaluated at a concrete record
with shaft diameter 0. -/
theorem c2_shaft_zero_amended_witness :
    paramsShaftZero.shaftDia = 0 ∧
    (createKnobGeometry_v2 paramsShaftZero = preShaft_v2 paramsShaftZero ∧
     (paramsShaftZero.outerRidged = false →
       paramsShaftZero.makeTopIndent = false →
       createKnobGeometry_v2 paramsShaftZero = knobBase_v2 paramsShaftZero) ∧
     createKnobGeometry_v1 paramsShaftZero =
       Geom.subtract (preShaft_v1 paramsShaftZero)
         (createShaftGeometry_v1 paramsShaftZero.shaftType
           paramsShaftZero.shaftDia paramsShaftZero.knobHeight)) :=
  ⟨rfl, c2_shaft_zero_amended paramsShaftZero rfl⟩

/-- Claim C3 counterexample: shaft type 3 is outside the recognized set, yet
variant 1 silently substitutes the round default shaft (its result equals the
type-0 result) and variant 2 returns the knob unmodified; neither fails. -/
theorem c3_unknown_shaft_counterexample :
    createShaftGeometry_v1 3 6 14 = createShaftGeometry_v1 0 6 14 ∧
    createShaftHole_v2 (knobBase_v2 defaultParams) 3 6 14 =
      knobBase_v2 defaultParams :=
  ⟨rfl, rfl⟩

/-- Claim C3, amended: an unrecognized shaft-type value is not an error: the
shaft builder of variant 1 silently substitutes the same round cylinder as
type 0, and createShaftHole of variant 2 logs a console warning and returns
the knob mesh unmodified. -/
theorem c3_unknown_shaft_amended (t : ℕ) (ht : 2 < t) (d h : ℝ)
    (baseMesh : Geom) :
    createShaftGeometry_v1 t d h = createShaftGeometry_v1 0 d h ∧
    createShaftHole_v2 baseMesh t d h = baseMesh := by
  rcases t with _ | _ | _ | n
  · exact absurd ht (by decide)
  · exact absurd ht (by decide)
  · exact absurd ht (by decide)
  · exact ⟨rfl, rfl⟩

/-- Claim C3 witness: the amended statement evaluated at shaft type 3. -/
theorem c3_unknown_shaft_amended_witness :
    2 < 3 ∧
    (createShaftGeometry_v1 3 6 14 = createShaftGeometry_v1 0 6 14 ∧
     createShaftHole_v2 (Geom.box 1 1 1) 3 6 14 = Geom.box 1 1 1) :=
  ⟨by decide, c3_unknown_shaft_amended 3 (by decide) 6 14 (Geom.box 1 1 1)⟩

/-- Claim C4: ridge i is claimed to sit at angle 2*pi*i/count with its center
at (cos * r, _, sin * r), r = diameter/2 + ridgeDepth/2.  This holds for
variant 2, whose ridge mesh is positioned at exactly those coordinates.  In
variant 1, makeRotationY overwrites the translation that makeTranslation had
stored in the same Matrix4, so the applied transform is a pure rotation and
every ridge stays centered at the origin: for ridge 0 of the default
parameters the claimed center abscissa is 18, the actual one is 0. -/
theorem c4_ridge_placement_bug :
    (∀ (count i : ℕ) (diameter height : ℝ),
        (ridgeGeom_v2 count diameter height i).center =
          some ⟨Real.cos (2 * Real.pi * i / count) *
                  (diameter / 2 + 1 / 2),
                height * 0.8 / 2,
                Real.sin (2 * Real.pi * i / count) *
                  (diameter / 2 + 1 / 2)⟩) ∧
    (ridgeGeom_v1 50 35 14 0).center = some ⟨0, 0, 0⟩ ∧
    Real.cos (2 * Real.pi * 0 / 50) * ((35 : ℝ) / 2 + 1 / 2) = 18 := by
  refine ⟨fun count i diameter height => ?_, ?_, ?_⟩
  · simp only [ridgeGeom_v2, Geom.center, Option.map_some']
    rw [show ((i : ℝ) / (count : ℝ)) * Real.pi * 2 =
        2 * Real.pi * (i : ℝ) / (count : ℝ) from by ring]
    simp [rotYpoint]
  · simp [ridgeGeom_v1, Geom.center, Mat4.identity, Mat4.makeTranslation,
      Mat4.makeRotationY, Mat4.transformPoint]
  · rw [show 2 * Real.pi * 0 / 50 = 0 from by ring]
    rw [Real.cos_zero]
    norm_num

/-- Claim C5 counterexample: with shaft diameter 40 and knob diameter 35
(shaftDia exceeding knobDia) both variants still run the boolean shaft
subtraction and return a geometry; nothing is rejected and no
InvalidGeometryParameter error exists anywhere in the pipeline. -/
theorem c5_no_validation_counterexample :
    (createKnobGeometry_v2 paramsInvalid).isSubtract = true ∧
    (createKnobGeometry_v1 paramsInvalid).isSubtract = true := by
  constructor
  · simp only [createKnobGeometry_v2]
    rw [if_pos (by norm_num [paramsInvalid] : paramsInvalid.shaftDia > 0)]
    rfl
  · rfl

/-- Claim C5, amended: the pipeline performs no parameter validation at all:
every record is accepted, the primitive builders run with hardcoded segment
counts (32 and 64, never below 3), and the boolean shaft subtraction still
runs even when shaft diameter is at least the knob diameter or dimensions are
non-positive - variant 1 unconditionally, variant 2 whenever shaftDia > 0 and
the shaft type is recognized.  No InvalidGeometryParameter rejection exists. -/
theorem c5_no_validation_amended (p : KnobParams) (h : p.shaftDia > 0)
    (ht : p.shaftType < 3) :
    (createKnobGeometry_v1 p).isSubtract = true ∧
    (createKnobGeometry_v2 p).isSubtract = true := by
  refine ⟨rfl, ?_⟩
  simp only [createKnobGeometry_v2]
  rw [if_pos h]
  have h3 : p.shaftType = 0 ∨ p.shaftType = 1 ∨ p.shaftType = 2 := by omega
  rcases h3 with h0 | h0 | h0 <;> rw [h0] <;> rfl

/-- Claim C5 witness: the amended statement evaluated at the record with
shaft diameter 40 and knob diameter 35. -/
theorem c5_no_validation_amended_witness :
    paramsInvalid.shaftDia > 0 ∧ paramsInvalid.shaftType < 3 ∧
    ((createKnobGeometry_v1 paramsInvalid).isSubtract = true ∧
     (createKnobGeometry_v2 paramsInvalid).isSubtract = true) :=
  ⟨by norm_num [paramsInvalid], by norm_num [paramsInvalid],
   c5_no_validation_amended paramsInvalid (by norm_num [paramsInvalid])
     (by norm_num [paramsInvalid])⟩

/-- Claim C6: the D-shaft is a cylinder with a box subtracted, and the flat
chord plane is claimed to lie at exactly diameter/6 from the axis.  In
variant 1 the cutout box occupies z in [d/6, d/2]: its inner face (the flat)
is at exactly d/6 and its outer face exactly reaches the surface.  In
variant 2 the cutout box is CENTERED at d/6 and occupies z in [0, d/3]: its
faces lie at 0 and d/3 - at shaft diameter 6 the faces are at 0 and 2, and
neither equals 6/6 = 1 - so no flat at d/6 exists and the box never reaches
the cylinder surface. -/
theorem c6_dshaft_flat_bug :
    (∀ (diameter height : ℝ),
        createDShapedShaft_v1 diameter height =
          Geom.subtract
            (Geom.cylinder (diameter / 2) (diameter / 2) (height * 1.1) 32 1
              false) (dCutout_v1 diameter height) ∧
        createDShapedShaft_v2 diameter height =
          Geom.subtract
            (Geom.cylinder (diameter / 2) (diameter / 2) height 32 1 false)
            (dCutout_v2 diameter height) ∧
        (dCutout_v1 diameter height).zInterval =
          some (diameter / 6, diameter / 2) ∧
        (dCutout_v2 diameter height).zInterval =
          some (0, diameter / 3)) ∧
    (dCutout_v2 6 6.6).zInterval = some (0, 2) ∧
    (0 : ℝ) ≠ 6 / 6 ∧ (2 : ℝ) ≠ 6 / 6 := by
  refine ⟨fun diameter height => ⟨rfl, rfl, ?_, ?_⟩, ?_, by norm_num,
    by norm_num⟩
  · simp only [dCutout_v1, Geom.zInterval, Option.map_some',
      Option.some.injEq, Prod.mk.injEq]
    constructor <;> ring
  · simp only [dCutout_v2, Geom.zInterval, Option.map_some',
      Option.some.injEq, Prod.mk.injEq]
    constructor <;> ring
  · simp only [dCutout_v2, Geom.zInterval, Option.map_some']
    norm_num

/-- Claim C7: the detented shaft is a cylinder of the shaft diameter combined
with exactly 20 radial box notches at angles 2*pi*i/20.  Both variants build
exactly 20 notches, and variant 2 places notch i at
(cos(2*pi*i/20) * d/2, 0, sin(2*pi*i/20) * d/2) on the cylinder surface and
combines the notch list with the cylinder before the knob subtraction.  In
variant 1, however, makeRotationY overwrites the translation stored by
makeTranslation, so every notch is centered on the shaft axis instead of at
its surface position: for notch 0 at shaft diameter 6 the claimed center
abscissa is 3, the actual one is 0. -/
theorem c7_detent_placement_bug :
    (∀ (diameter height : ℝ),
        createDetentedShaft_v2 diameter height =
          Geom.subtract
            (Geom.cylinder (diameter / 2) (diameter / 2) height 32 1 false)
            (Geom.concat
              ((List.range 20).map (detentGeom_v2 diameter height))) ∧
        ((List.range 20).map (detentGeom_v2 diameter height)).length = 20 ∧
        ((List.range 20).map (detentGeom_v1 diameter height)).length = 20) ∧
    (∀ (i : ℕ) (diameter height : ℝ),
        (detentGeom_v2 diameter height i).center =
          some ⟨Real.cos (2 * Real.pi * i / 20) * (diameter / 2), 0,
                Real.sin (2 * Real.pi * i / 20) * (diameter / 2)⟩) ∧
    (detentGeom_v1 6 15.4 0).center = some ⟨0, 0, 0⟩ ∧
    Real.cos (2 * Real.pi * 0 / 20) * ((6 : ℝ) / 2) = 3 := by
  refine ⟨fun diameter height => ⟨rfl, rfl, rfl⟩,
    fun i diameter height => ?_, ?_, ?_⟩
  · simp only [detentGeom_v2, Geom.center, Option.map_some']
    rw [show ((i : ℝ) / (20 : ℝ)) * Real.pi * 2 =
        2 * Real.pi * (i : ℝ) / (20 : ℝ) from by ring]
    simp [rotYpoint]
  · simp [detentGeom_v1, Geom.center, Mat4.identity, Mat4.makeTranslation,
      Mat4.makeRotationY, Mat4.transformPoint]
  · rw [show 2 * Real.pi * 0 / 20 = 0 from by ring]
    rw [Real.cos_zero]
    norm_num

/-- Claim C8: for every recognized shaft type and positive shaft diameter,
the shaft negative volume is built from a base cylinder of height
knobHeight * 1.1, strictly taller than the knob (for the positive knob
heights of the data model), so the bore passes through both caps. -/
theorem c8_shaft_taller (t : ℕ) (d h : ℝ) (ht : t < 3) (_hd : 0 < d)
    (hh : 0 < h) :
    (createShaftGeometry_v1 t d h).baseCylHeight = some (h * 1.1) ∧
    (∃ sg, shaftGeometrySwitch_v2 t d (h * 1.1) = some sg ∧
        sg.baseCylHeight = some (h * 1.1)) ∧
    h < h * 1.1 := by
  have h3 : t = 0 ∨ t = 1 ∨ t = 2 := by omega
  refine ⟨?_, ?_, by nlinarith⟩
  · rcases h3 with h0 | h0 | h0 <;> subst h0 <;> rfl
  · rcases h3 with h0 | h0 | h0 <;> subst h0 <;> exact ⟨_, rfl, rfl⟩

/-- Claim C8 witness: the statement evaluated at shaft type 0, shaft diameter
6, knob height 14. -/
theorem c8_shaft_taller_witness :
    (0 : ℕ) < 3 ∧ (0 : ℝ) < 6 ∧ (0 : ℝ) < 14 ∧
    ((createShaftGeometry_v1 0 6 14).baseCylHeight = some (14 * 1.1) ∧
     (∃ sg, shaftGeometrySwitch_v2 0 6 (14 * 1.1) = some sg ∧
        sg.baseCylHeight = some (14 * 1.1)) ∧
     (14 : ℝ) < 14 * 1.1) :=
  ⟨by decide, by norm_num, by norm_num,
   c8_shaft_taller 0 6 14 (by decide) (by norm_num) (by norm_num)⟩

/-- Claim C9: the pipeline is a pure function of the parameter record: both
variants are embedded as functions reading no state other than their
argument, so equal records yield identical geometries. -/
theorem c9_deterministic (p q : KnobParams) (h : p = q) :
    createKnobGeometry_v1 p = createKnobGeometry_v1 q ∧
    createKnobGeometry_v2 p = createKnobGeometry_v2 q := by
  subst h
  exact ⟨rfl, rfl⟩

/-- Claim C9 witness: determinism evaluated at the default app.js record. -/
theorem c9_deterministic_witness :
    defaultParams = defaultParams ∧
    (createKnobGeometry_v1 defaultParams =
       createKnobGeometry_v1 defaultParams ∧
     createKnobGeometry_v2 defaultParams =
       createKnobGeometry_v2 defaultParams) :=
  ⟨rfl, c9_deterministic defaultParams defaultParams rfl⟩

/-- Characterization of the mergeBufferGeometries fold from any starting
accumulator: positions and (length-clipped) normals are appended in input
order, indices are appended with the running vertex offset, and the offset
grows by the total vertex count. -/
theorem mergeAccum_foldl (gs : List BufferGeometry) (P N : List ℝ)
    (I : List ℕ) (V : ℕ) :
    gs.foldl mergeAccum (P, N, I, V) =
      (P ++ (gs.map fun g => g.position).flatten,
       N ++ (gs.map fun g => g.normal.take g.position.length).flatten,
       I ++ mergedIndexSpec gs V,
       V + (gs.map fun g => g.position.length / 3).sum) := by
  induction gs generalizing P N I V with
  | nil => simp [mergedIndexSpec]
  | cons g gs ih =>
    rw [List.foldl_cons]
    show (gs.foldl mergeAccum
      (P ++ g.position, N ++ g.normal.take g.position.length,
        I ++ _, V + g.position.length / 3)) = _
    rw [ih]
    simp only [List.map_cons, List.flatten_cons, mergedIndexSpec,
      List.sum_cons, List.append_assoc, Nat.add_assoc]

/-- A single non-indexed triangle with normals (0, 1, 0) at every vertex:
used to exhibit that the merged normals are recomputed, not concatenated. -/
def triGeometry : BufferGeometry :=
  ⟨[0, 0, 0, 1, 0, 0, 0, 1, 0], [0, 1, 0, 0, 1, 0, 0, 1, 0], none⟩

/-- Claim C10 counterexample: merging the single triangle triGeometry keeps
its position array but returns normal array (0,0,1) per vertex - the normals
recomputed by computeVertexNormals from the triangle plane - which differs
from the concatenation of the input normal arrays, (0,1,0) per vertex. -/
theorem c10_merge_counterexample :
    (mergeBufferGeometries [triGeometry]).normal =
      [0, 0, 1, 0, 0, 1, 0, 0, 1] ∧
    ([triGeometry].map fun g => g.normal).flatten =
      [0, 1, 0, 0, 1, 0, 0, 1, 0] ∧
    (mergeBufferGeometries [triGeometry]).normal ≠
      ([triGeometry].map fun g => g.normal).flatten := by
  have hnorm : (mergeBufferGeometries [triGeometry]).normal =
      computeVertexNormalsArr [0, 0, 0, 1, 0, 0, 0, 1, 0] [0, 1, 2] := rfl
  have hval : computeVertexNormalsArr [0, 0, 0, 1, 0, 0, 0, 1, 0] [0, 1, 2] =
      [0, 0, 1, 0, 0, 1, 0, 0, 1] := by
    simp only [computeVertexNormalsArr, groupVec3, triples, accumFaceNormals,
      List.foldl_cons, List.foldl_nil, List.length_cons, List.length_nil,
      List.replicate, addAt, vAdd, vSub, vCross, vNormalize, List.getD,
      List.map_cons, List.map_nil, List.flatten]
    norm_num [Real.sqrt_one]
  have hflat : ([triGeometry].map fun g => g.normal).flatten =
      [0, 1, 0, 0, 1, 0, 0, 1, 0] := rfl
  refine ⟨hnorm.trans hval, hflat, ?_⟩
  rw [hnorm.trans hval, hflat]
  simp

/-- Claim C10, amended: for every list of input geometries,
mergeBufferGeometries returns the concatenation of the position arrays in
input order, and an index that re-emits every input triangle with each input
offset by the cumulative vertex count of the preceding inputs (sequential
indices for non-indexed inputs) - but the normal array of the returned
geometry is NOT the concatenation of the input normal arrays: the source
calls computeVertexNormals on the merged geometry, which overwrites the
normal attribute with normals recomputed from the merged positions and
index. -/
theorem c10_merge_amended (gs : List BufferGeometry) (_hne : gs ≠ []) :
    (mergeBufferGeometries gs).position =
      (gs.map fun g => g.position).flatten ∧
    (mergeBufferGeometries gs).index = some (mergedIndexSpec gs 0) ∧
    (mergeBufferGeometries gs).normal =
      computeVertexNormalsArr ((gs.map fun g => g.position).flatten)
        (mergedIndexSpec gs 0) := by
  have hst := mergeAccum_foldl gs [] [] [] 0
  simp only [List.nil_append] at hst
  refine ⟨?_, ?_, ?_⟩ <;>
    simp only [mergeBufferGeometries, hst]

/-- Claim C10 witness: the amended statement evaluated at the singleton list
holding triGeometry. -/
theorem c10_merge_amended_witness :
    [triGeometry] ≠ [] ∧
    ((mergeBufferGeometries [triGeometry]).position =
       ([triGeometry].map fun g => g.position).flatten ∧
     (mergeBufferGeometries [triGeometry]).index =
       some (mergedIndexSpec [triGeometry] 0) ∧
     (mergeBufferGeometries [triGeometry]).normal =
       computeVertexNormalsArr
         (([triGeometry].map fun g => g.position).flatten)
         (mergedIndexSpec [triGeometry] 0)) :=
  ⟨by simp, c10_merge_amended [triGeometry] (by simp)⟩

end



